import Mathlib

/-!
Verification of the GX_Installer core pipeline (src/core/disk.py,
src/core/installer.py, src/core/system.py, src/core/profiles.py,
src/config/mirrors.py) against its natural-language specification.

The Python source is shallowly embedded: pure computations become Lean
functions; interactions with the outside world (subprocess results,
/proc/meminfo, the network, the file system, the clock) become explicit
environment parameters; a Python function that may raise is modelled with
Except, where the error string is the exception message (quotation marks
that Python prints around attribute or literal names are elided from the
modelled messages, since only their identity matters here, never their
punctuation).
-/

namespace GXInstaller

/-! ## Python string and int helpers

Models of the Python primitives used by the installer: str.strip,
int(...) parsing, str.endswith on a single character.  All are defined on
List Char; String wrappers convert via String.data. -/

/-- Decides whether a character is an ASCII decimal digit, as accepted by
Python int() after stripping. -/
def pyIsDigit (c : Char) : Bool := 48 ≤ c.toNat && c.toNat ≤ 57

/-- Decides whether a character is whitespace stripped by Python int()
(space, tab, newline, vertical tab, form feed, carriage return). -/
def pyIsSpace (c : Char) : Bool :=
  c.toNat = 32 || c.toNat = 9 || c.toNat = 10 || c.toNat = 11 ||
  c.toNat = 12 || c.toNat = 13

/-- Value of a list of decimal digit characters, most significant first. -/
def digitsToNat (l : List Char) : Nat :=
  l.foldl (fun a c => a * 10 + (c.toNat - 48)) 0

/-- Strips leading and trailing whitespace, as Python int() does before
parsing. -/
def pyStrip (l : List Char) : List Char :=
  ((l.dropWhile pyIsSpace).reverse.dropWhile pyIsSpace).reverse

/-- Parses a nonempty all-digit character list; none models ValueError. -/
def pyParseDigits (l : List Char) : Option Nat :=
  if !l.isEmpty && l.all pyIsDigit then some (digitsToNat l) else none

/-- Sign handling of Python int() after stripping: an optional single
leading sign, then digits. -/
def pyParseSigned : List Char → Option Int
  | [] => none
  | c :: rest =>
    if c = '-' then (pyParseDigits rest).map (fun n => -(n : Int))
    else if c = '+' then (pyParseDigits rest).map (fun n => (n : Int))
    else (pyParseDigits (c :: rest)).map (fun n => (n : Int))

/-- Model of Python int(s): strip whitespace, optional sign, digits.
none models a ValueError. -/
def pyParseIntChars (l : List Char) : Option Int :=
  pyParseSigned (pyStrip l)

/-- Model of Python int(s) on a String. -/
def pyParseInt (s : String) : Option Int := pyParseIntChars s.data

/-- Model of Python s.endswith(c) for a single character c. -/
def endsWithChar (l : List Char) (c : Char) : Bool := l.getLast? == some c

/-! ## Swap-size resolution (src/core/disk.py lines 115-133)

The body of validate_disk_for_installation computes swap_gb from the
swap_size string and /proc/meminfo.  The meminfo read is modelled as
ram : Option Nat, the MemTotal value in kB when the file is readable and
none when reading raises (the bare except falls back to 2).  The result
is an Option: none models the ValueError raised by int() on a malformed
G/M size, which the outer except of the caller turns into a validation
failure. -/

def resolveSwapAux (l : List Char) (ram : Option Nat) : Option Int :=
  if l = "none".data then some 0
  else if l = "auto".data then
    some (match ram with
          | some kb => min ((kb / (1024 * 1024) : Nat) : Int) 8
          | none => 2)
  else if endsWithChar l 'G' then pyParseIntChars l.dropLast
  else if endsWithChar l 'M' then
    (pyParseIntChars l.dropLast).map (fun n => max 1 (Int.fdiv n 1024))
  else some 0

/-- Swap resolution as performed inline by validate_disk_for_installation:
"none" contributes 0, "auto" reads MemTotal and caps at 8 (2 on a read
failure), a trailing G is a size in GB, a trailing M is floor-divided by
1024 with max(1, ...), anything else leaves swap_gb at 0. -/
def resolveSwap (swapSize : String) (ram : Option Nat) : Option Int :=
  resolveSwapAux swapSize.data ram

/-! ## Disk info and validation (src/core/disk.py lines 69-149) -/

/-- Raw per-device data the two lsblk invocations of get_disk_info would
yield: total size in bytes, model string, and whether any partition
reports a mount point. -/
structure DiskQuery where
  sizeBytes : Nat
  model : String
  mounted : Bool
  deriving DecidableEq, Repr

/-- Environment of one validate_disk_for_installation call: the outcome
of querying the device (error e models the exception raised inside
get_disk_info, with message e) and the readable MemTotal in kB. -/
structure DiskEnv where
  query : Except String DiskQuery
  ram : Option Nat

/-- Result dictionary of get_disk_info: size_gb is size_bytes // 2^30 and
suitable is the 20GB minimum check.  A failing query raises DiskError
with the message prefixed by its wrapper text. -/
def get_disk_info (env : DiskEnv) : Except String (Nat × String × Bool × Bool) :=
  match env.query with
  | .error e => .error ("Could not get disk info: " ++ e)
  | .ok q =>
    .ok (q.sizeBytes / (1024 * 1024 * 1024), q.model, q.mounted,
         decide (20 ≤ q.sizeBytes / (1024 * 1024 * 1024)))

/-- Body of validate_disk_for_installation before its outer except: the
checks run in source order (minimum size, then the computed space
requirement, then the mounted check), and an error models an exception
escaping to the outer handler. -/
def validateDiskBody (env : DiskEnv) (swapSize : String) :
    Except String (Bool × String) :=
  match get_disk_info env with
  | .error e => .error e
  | .ok info =>
    let sizeGb := info.1
    if sizeGb < 20 then
      .ok (false, "Disk too small: " ++ toString sizeGb ++
        "GB (minimum 20GB required)")
    else
      match resolveSwap swapSize env.ram with
      | none => .error ("invalid literal for int() with base 10: " ++
          swapSize.dropRight 1)
      | some swapGb =>
        let totalRequired : Int := 10 + 1 + swapGb + 5
        if (sizeGb : Int) < totalRequired then
          .ok (false, "Insufficient space: " ++ toString sizeGb ++
            "GB available, " ++ toString totalRequired ++
            "GB required (including " ++ toString swapGb ++ "GB swap)")
        else if info.2.2.1 then
          .ok (false, "Disk is currently mounted and in use")
        else
          .ok (true, "Disk suitable: " ++ toString sizeGb ++ "GB total, " ++
            toString ((sizeGb : Int) - totalRequired) ++ "GB will remain free")

/-- validate_disk_for_installation: the outer except Exception turns any
raised error into a returned (False, "Validation failed: ...") pair, so
the function as a whole always returns a pair. -/
def validate_disk_for_installation (env : DiskEnv) (swapSize : String) :
    Bool × String :=
  match validateDiskBody env swapSize with
  | .ok r => r
  | .error e => (false, "Validation failed: " ++ e)

/-! ## Mirror testing (src/config/mirrors.py)

The network is modelled as a list of per-mirror outcomes, aligned with
the mirror list: asyncio.gather returns the results in submission order,
one per input, so test_mirrors_parallel is a zipWith. -/

/-- Fixed mirror catalog WORLDWIDE_MIRRORS: (display name, URL template)
pairs, copied verbatim from src/config/mirrors.py. -/
def WORLDWIDE_MIRRORS : List (String × String) := [
  ("🇺🇸 Rackspace (Texas)", "https://mirror.rackspace.com/archlinux/$repo/os/$arch"),
  ("🇺🇸 MIT (Massachusetts)", "https://mirrors.mit.edu/archlinux/$repo/os/$arch"),
  ("🇺🇸 Kernel.org (California)", "https://mirrors.kernel.org/archlinux/$repo/os/$arch"),
  ("🇺🇸 Georgia Tech", "https://www.gtlib.gatech.edu/pub/archlinux/$repo/os/$arch"),
  ("🇺🇸 University of Utah", "https://arch.mirror.constant.com/$repo/os/$arch"),
  ("🇨🇦 University of Waterloo", "https://mirror.csclub.uwaterloo.ca/archlinux/$repo/os/$arch"),
  ("🇨🇦 Carleton University", "https://mirror.carleton.ca/archlinux/$repo/os/$arch"),
  ("🇩🇪 rwth-aachen.de", "https://mirror.rwth-aachen.de/archlinux/$repo/os/$arch"),
  ("🇩🇪 FAU Erlangen", "https://ftp.fau.de/archlinux/$repo/os/$arch"),
  ("🇩🇪 TU Chemnitz", "https://ftp.tu-chemnitz.de/pub/linux/archlinux/$repo/os/$arch"),
  ("🇫🇷 Ircam", "https://mirrors.ircam.fr/pub/archlinux/$repo/os/$arch"),
  ("🇫🇷 Telecom ParisTech", "https://mirror.telepoint.bg/archlinux/$repo/os/$arch"),
  ("🇬🇧 University of Cambridge", "https://www.mirrorservice.org/sites/ftp.archlinux.org/$repo/os/$arch"),
  ("🇬🇧 Bytemark", "https://lon.mirror.rackspace.com/archlinux/$repo/os/$arch"),
  ("🇳🇱 Nluug", "https://ftp.nluug.nl/os/Linux/distr/archlinux/$repo/os/$arch"),
  ("🇳🇱 Leaseweb", "https://mirror.leaseweb.com/archlinux/$repo/os/$arch"),
  ("🇸🇪 Lysator", "https://ftp.lysator.liu.se/pub/archlinux/$repo/os/$arch"),
  ("🇳🇴 University of Oslo", "https://mirrors.dotsrc.org/archlinux/$repo/os/$arch"),
  ("🇨🇭 Switch.ch", "https://mirror.switch.ch/ftp/mirror/archlinux/$repo/os/$arch"),
  ("🇮🇹 Garr", "https://archlinux.mirror.garr.it/mirrors/archlinux/$repo/os/$arch"),
  ("🇪🇸 RedIRIS", "https://ftp.rediris.es/mirror/archlinux/$repo/os/$arch"),
  ("🇯🇵 JAIST", "https://ftp.jaist.ac.jp/pub/Linux/ArchLinux/$repo/os/$arch"),
  ("🇯🇵 Tsukuba University", "https://ftp.tsukuba.wide.ad.jp/Linux/archlinux/$repo/os/$arch"),
  ("🇰🇷 KAIST", "https://ftp.kaist.ac.kr/ArchLinux/$repo/os/$arch"),
  ("🇨🇳 Tsinghua University", "https://mirrors.tuna.tsinghua.edu.cn/archlinux/$repo/os/$arch"),
  ("🇨🇳 USTC", "https://mirrors.ustc.edu.cn/archlinux/$repo/os/$arch"),
  ("🇸🇬 National University", "https://download.nus.edu.sg/mirror/archlinux/$repo/os/$arch"),
  ("🇦🇺 AARNet", "https://mirror.aarnet.edu.au/pub/archlinux/$repo/os/$arch"),
  ("🇦🇺 Internode", "https://mirror.internode.on.net/pub/archlinux/$repo/os/$arch"),
  ("🇮🇳 Indian Institute of Technology", "https://mirror.cse.iitk.ac.in/archlinux/$repo/os/$arch"),
  ("🇧🇷 University of São Paulo", "https://br.mirror.archlinux-br.org/$repo/os/$arch"),
  ("🇧🇷 C3SL UFPR", "https://archlinux.c3sl.ufpr.br/$repo/os/$arch"),
  ("🇨🇱 University of Chile", "https://mirror.uchile.cl/archlinux/$repo/os/$arch"),
  ("🇿🇦 University of the Witwatersrand", "https://archlinux.mirror.ac.za/$repo/os/$arch"),
  ("🌍 Worldwide CDN", "https://geo.mirror.pkgbuild.com/$repo/os/$arch"),
  ("🌍 CloudFlare CDN", "https://cloudflaremirrors.com/archlinux/$repo/os/$arch")]

/-- Outcome of one network probe of test_mirror_speed: a measured elapsed
time in milliseconds, or a raised exception with its message. -/
inductive NetOutcome where
  | success (ms : Nat)
  | failure (err : String)
  deriving DecidableEq, Repr

/-- Result tuple (name, url, speed_ms, error_msg) of test_mirror_speed. -/
structure MirrorResult where
  name : String
  url : String
  speedMs : Option Nat
  errMsg : Option String
  deriving DecidableEq, Repr

/-- Error-message truncation in test_mirror_speed: str(e)[:50] + "..."
when longer than 50 characters. -/
def truncErr (e : String) : String :=
  if 50 < e.length then (e.take 50) ++ "..." else e

/-- test_mirror_speed: a succeeding probe yields (name, url, ms, None), a
failing one (name, url, None, truncated message). -/
def test_mirror_speed (m : String × String) (o : NetOutcome) : MirrorResult :=
  match o with
  | .success ms => ⟨m.1, m.2, some ms, none⟩
  | .failure e => ⟨m.1, m.2, none, some (truncErr e)⟩

/-- test_mirrors_parallel: asyncio.gather preserves submission order and
yields one result per submitted mirror. -/
def test_mirrors_parallel (mirrors : List (String × String))
    (net : List NetOutcome) : List MirrorResult :=
  List.zipWith test_mirror_speed mirrors net

/-- Model of Python split on an opening parenthesis, keeping empty
pieces, as used by the sort key of sort_mirrors_by_speed. -/
def splitOnParen : List Char → List (List Char)
  | [] => [[]]
  | c :: rest =>
    if c = '(' then [] :: splitOnParen rest
    else
      match splitOnParen rest with
      | [] => [[c]]
      | p :: ps => (c :: p) :: ps

/-- Model of Python split on the two-character separator "ms",
non-overlapping and left-to-right, keeping empty pieces. -/
def splitOnMS : List Char → List (List Char)
  | [] => [[]]
  | 'm' :: 's' :: rest => [] :: splitOnMS rest
  | c :: rest =>
    match splitOnMS rest with
    | [] => [[c]]
    | p :: ps => (c :: p) :: ps

/-- Sort key of sort_mirrors_by_speed, applied to a formatted display
name: int of piece [0] of the "ms"-split of piece [1] of the
parenthesis-split.  An error models the exception the key raises
(ValueError from int, carrying the unparsable piece, or IndexError
when the display holds no parenthesis). -/
def pySortKey (display : String) : Except String Int :=
  match splitOnParen display.data with
  | _ :: second :: _ =>
    let piece := match splitOnMS second with
      | [] => []
      | p :: _ => p
    match pyParseIntChars piece with
    | some n => .ok n
    | none => .error ("invalid literal for int() with base 10: " ++
        (⟨piece⟩ : String))
  | _ => .error "IndexError: list index out of range"

/-- Key precomputation of list.sort(key=...): CPython evaluates the key
of every element, in list order, before comparing; the first raising key
aborts the sort. -/
def computeSortKeys : List (String × String × String) →
    Except String (List (Int × String × String × String))
  | [] => .ok []
  | w :: ws =>
    match pySortKey w.1 with
    | .ok k => (computeSortKeys ws).map (fun t => (k, w) :: t)
    | .error e => .error e

/-- sort_mirrors_by_speed: partition results into working and failed in
input order, format display names, sort the working ones by the latency
parsed back out of the display name (stably), and append the failed
ones.  An error models the exception escaping from the sort key. -/
def sort_mirrors_by_speed (results : List MirrorResult) :
    Except String (List (String × String × String)) :=
  let working := results.filterMap (fun r =>
    (r.speedMs).map (fun ms =>
      (r.name ++ " (" ++ toString ms ++ "ms)", r.url, "working")))
  let failed := results.filterMap (fun r =>
    match r.speedMs with
    | some _ => none
    | none => some (r.name ++ " (Failed: " ++ r.errMsg.getD "" ++ ")",
        r.url, "failed"))
  match computeSortKeys working with
  | .error e => .error e
  | .ok keyed =>
    .ok (((keyed.mergeSort (fun a b => a.1 ≤ b.1)).map (fun t => t.2)) ++ failed)

/-- get_tested_mirrors: sweep the fixed catalog, then aggregate. -/
def get_tested_mirrors (net : List NetOutcome) :
    Except String (List (String × String × String)) :=
  sort_mirrors_by_speed (test_mirrors_parallel WORLDWIDE_MIRRORS net)

/-! ## Mirror cache (src/config/mirrors.py lines 171-192) -/

/-- Process-wide cache state: _mirror_cache and _cache_timestamp.  The
module initialises them to None and 0. -/
structure MirrorCacheState where
  cache : Option (List (String × String × String))
  timestamp : Nat
  deriving DecidableEq, Repr

/-- Module-initial cache state. -/
def initialCacheState : MirrorCacheState := ⟨none, 0⟩

/-- Result of one get_cached_mirrors call: the returned list, the cache
state after the call, and whether an underlying sweep ran. -/
structure CacheCallResult where
  value : List (String × String × String)
  state : MirrorCacheState
  swept : Bool
  deriving DecidableEq, Repr

/-- get_cached_mirrors: return the cached list when the cache is truthy
(a nonempty list) and younger than cache_duration, else run a sweep
(whose successful result is the sweep argument), store it, and stamp the
time the call started.  Nat subtraction agrees with the Python float
comparison here: a clock reading earlier than the stored stamp also
takes the cached branch. -/
def get_cached_mirrors (sweep : List (String × String × String))
    (cacheDuration : Nat) (now : Nat) (st : MirrorCacheState) :
    CacheCallResult :=
  let truthy := match st.cache with
    | some l => !l.isEmpty
    | none => false
  if truthy && decide (now - st.timestamp < cacheDuration) then
    ⟨st.cache.getD [], st, false⟩
  else
    ⟨sweep, ⟨some sweep, now⟩, true⟩

/-! ## Profile discovery and validation (src/core/profiles.py)

A profile directory is modelled by the facts _validate_profile observes
about it: existence of install.sh and packages/package-list.txt, the
executable bit, whether the stat/chmod metadata calls raise (the outer
except then returns None), and the lines of the package list (an error
models an unreadable file, whose inner except leaves the count at 0).
The display-only fields of the returned dict (description, icon,
display, details) are presentation strings never consumed by the core
and are not modelled. -/

structure ProfileFS where
  name : String
  installShExists : Bool
  installShExecutable : Bool
  statFails : Bool
  packageListExists : Bool
  packageListLines : Except String (List String)
  deriving Repr

/-- Model of Python str.strip() with default whitespace. -/
def pyStripStr (s : String) : String := ⟨pyStrip s.data⟩

/-- Package counting loop of _validate_profile: nonempty lines not
starting with a hash, after stripping. -/
def countPackages (lines : List String) : Nat :=
  (lines.map pyStripStr).countP
    (fun l => !l.isEmpty && !l.startsWith "#")

/-- Summary a valid profile yields: its name and package count (the
modelled subset of the returned dict). -/
structure ProfileInfo where
  name : String
  packageCount : Nat
  deriving DecidableEq, Repr

/-- Model of _validate_profile: None when install.sh is missing, when
package-list.txt is missing, or when the metadata calls raise (outer
except); a non-executable install.sh is made executable and the profile
is still accepted; an unreadable package list leaves the count at 0. -/
def validate_profile (fs : ProfileFS) : Option ProfileInfo :=
  if !fs.installShExists then none
  else if !fs.packageListExists then none
  else if fs.statFails then none
  else
    some ⟨fs.name,
      match fs.packageListLines with
      | .ok lines => countPackages lines
      | .error _ => 0⟩

/-- Model of discover_profiles: an empty list when the profiles directory
is missing, else the valid profiles among the subdirectories, in
iteration order; invalid ones are skipped (logged as a warning). -/
def discover_profiles (dirExists : Bool) (dirs : List ProfileFS) :
    List ProfileInfo :=
  if !dirExists then [] else dirs.filterMap validate_profile

/-! ## Profile installation (src/core/profiles.py lines 121-224 and
src/core/installer.py lines 179-221)

The target file system and the chroot command runner are an environment:
targetValidation gives the (ok, msg) pair validate_profile_in_target
would return for a name, and chmodOk and runOk whether the two chroot
commands of install_profile exit zero.  yayOk and hydeOk model the
helper-tool and theme steps the orchestrator wraps in their own
try/except. -/

structure ProfileEnv where
  targetValidation : String → Bool × String
  chmodOk : String → Bool
  runOk : String → Bool
  yayOk : Bool
  hydeOk : Bool

/-- install_profile: re-validate the bundle in the target root, chmod the
wrapper script, run it in the chroot; every failure is re-raised as a
ProfileError whose message carries the underlying one. -/
def install_profile (env : ProfileEnv) (profileName : String) :
    Except String Unit :=
  let v := env.targetValidation profileName
  if !v.1 then
    .error ("Profile installation failed: Profile validation failed: " ++ v.2)
  else if !env.chmodOk profileName then
    .error "Profile installation failed: chroot chmod exited nonzero"
  else if !env.runOk profileName then
    .error "Profile installation failed: installer script exited nonzero"
  else
    .ok ()

/-- Report of one _install_profiles stage run: its progress emissions,
the profiles whose installation succeeded, the per-profile errors that
were caught and logged, whether the yay step failure was logged, and the
stage outcome (error models an InstallationError aborting the stage). -/
structure ProfilesReport where
  trace : List (String × Int)
  installed : List String
  loggedErrors : List (String × String)
  yayFailLogged : Bool
  result : Except String Unit
  deriving Repr

/-- Per-profile loop body of _install_profiles: index-scaled progress,
then install_profile with ProfileError caught, logged and skipped. -/
def profileLoop (env : ProfileEnv) (total : Nat) :
    List (Nat × String) → List (String × Int) × List String × List (String × String)
  | [] => ([], [], [])
  | (i, name) :: rest =>
    let progress : Int := 60 + ((i * 10) / total : Nat)
    let (tr, ok, errs) := profileLoop env total rest
    match install_profile env name with
    | .ok _ =>
      (("Installing profile: " ++ name, progress) :: tr, name :: ok, errs)
    | .error e =>
      (("Installing profile: " ++ name, progress) :: tr, ok, (name, e) :: errs)

/-- Model of _install_profiles: an empty selection is a no-op emitting
70; otherwise emit 55, run the yay bootstrap with its failure only
logged, install each profile with per-profile errors caught and logged,
run the HyDE step when Hyprland was selected (install_hyde_theme
catches its own errors and returns False), and emit 70.  The stage
itself only fails on an exception outside those handlers, which the
modelled environment cannot produce, so the result is always ok. -/
def install_profiles (env : ProfileEnv) (profiles : List String) :
    ProfilesReport :=
  if profiles.isEmpty then
    ⟨[("Skipping profile installation", 70)], [], [], false, .ok ()⟩
  else
    let header := ("Installing " ++ toString profiles.length ++
      " profile(s)...", (55 : Int))
    let (tr, ok, errs) :=
      profileLoop env profiles.length profiles.enum
    let hydeTrace :=
      if profiles.contains "Hyprland" then
        [(("Installing HyDE theme...", (68 : Int)))]
      else []
    ⟨header :: (tr ++ hydeTrace ++ [("Profile installation completed", 70)]),
     ok, errs, !env.yayOk, .ok ()⟩

/-! ## Progress-emitting steps

A step of the pipeline is modelled as the list of (message, percentage)
progress events it delivers to the caller-supplied callback together
with its outcome; an error carries the exception message.  Sequencing
keeps the events of a failing prefix and drops the unreached suffix,
exactly as synchronous callback calls before a raise do. -/

abbrev Step (α : Type) := List (String × Int) × Except String α

/-- Emits one progress event and succeeds. -/
def emitStep (msg : String) (pct : Int) : Step Unit := ([(msg, pct)], .ok ())

/-- Sequences two steps: the second runs only when the first succeeded,
and events accumulate in order. -/
def stepThen (a b : Step Unit) : Step Unit :=
  match a with
  | (ev, .ok _) => (ev ++ b.1, b.2)
  | (ev, .error e) => (ev, .error e)

/-- Sequences a list of steps. -/
def stepSeq (l : List (Step Unit)) : Step Unit :=
  l.foldl stepThen ([], .ok ())

/-- Lifts an external command outcome into a step, wrapping a failure
message with the prefix of the except handler around it. -/
def cmdStep (prefixMsg : String) (r : Except String Unit) : Step Unit :=
  match r with
  | .ok _ => ([], .ok ())
  | .error e => ([], .error (prefixMsg ++ e))

/-! ## SystemInstaller (src/core/system.py)

Every method shells out to external tools against the mounted target;
each tool invocation cluster is an environment field whose error string
is the underlying failure description.  pacstrap additionally
distinguishes a wall-clock timeout. -/

/-- Outcome of the pacstrap invocation: exit zero, nonzero with stderr,
or subprocess.TimeoutExpired after the 30-minute limit. -/
inductive PacstrapOutcome where
  | ok
  | fail (stderr : String)
  | timedOut
  deriving DecidableEq, Repr

structure SysEnv where
  pacstrap : PacstrapOutcome
  genfstab : Except String Unit
  networkSetup : Except String Unit
  copyFiles : Except String Unit
  hostnameWrite : Except String Unit
  localeOps : Except String Unit
  timezoneOps : Except String Unit
  userOps : Except String Unit
  services : Except String Unit
  bootloader : Except String Unit
  extraPkgs : Except String Unit

/-- install_base_system: emits 10, runs pacstrap (a nonzero exit raises
SystemInstallError inside the try, which the generic handler re-wraps),
emits 25 on success. -/
def install_base_system (se : SysEnv) : Step Unit :=
  stepThen (emitStep "Installing base system..." 10)
    (match se.pacstrap with
     | .timedOut => ([], .error "Base system installation timed out")
     | .fail e => ([], .error ("Base system installation failed: pacstrap failed: " ++ e))
     | .ok => emitStep "Base system installed successfully" 25)

/-- generate_fstab: emits 30, runs genfstab and writes the file, emits
35 on success. -/
def generate_fstab (se : SysEnv) : Step Unit :=
  stepSeq [emitStep "Generating fstab..." 30,
    cmdStep "fstab generation failed: " se.genfstab,
    emitStep "fstab generated successfully" 35]

/-- setup_network_in_chroot: emits 40, copies resolv.conf and writes or
copies the mirrorlist, emits 45 on success. -/
def setup_network_in_chroot (se : SysEnv) : Step Unit :=
  stepSeq [emitStep "Setting up network configuration..." 40,
    cmdStep "Network setup failed: " se.networkSetup,
    emitStep "Network configuration completed" 45]

/-- copy_installer_files: emits 50, copies the installer and profile
trees into the target, emits 55 on success. -/
def copy_installer_files (se : SysEnv) : Step Unit :=
  stepSeq [emitStep "Copying installer files..." 50,
    cmdStep "Failed to copy installer files: " se.copyFiles,
    emitStep "Installer files copied successfully" 55]

/-- set_hostname: writes /etc/hostname and /etc/hosts; no progress
emission. -/
def set_hostname (se : SysEnv) : Step Unit :=
  cmdStep "Failed to set hostname: " se.hostnameWrite

/-- configure_locale: emits 70, edits locale.gen, runs locale-gen and
writes locale.conf, emits 75 on success. -/
def configure_locale (se : SysEnv) : Step Unit :=
  stepSeq [emitStep "Configuring locale..." 70,
    cmdStep "Locale configuration failed: " se.localeOps,
    emitStep "Locale configured successfully" 75]

/-- configure_timezone: links the zoneinfo and syncs the clock; no
progress emission. -/
def configure_timezone (se : SysEnv) : Step Unit :=
  cmdStep "Timezone configuration failed: " se.timezoneOps

/-- create_user: emits 60, runs useradd, chpasswd and the sudoers write,
emits 65 on success. -/
def create_user (se : SysEnv) (username : String) : Step Unit :=
  stepSeq [emitStep ("Creating user account: " ++ username) 60,
    cmdStep "User creation failed: " se.userOps,
    emitStep ("User " ++ username ++ " created successfully") 65]

/-- enable_services: systemctl enable of the essential services. -/
def enable_services (se : SysEnv) : Step Unit :=
  cmdStep "Service enablement failed: " se.services

/-- install_bootloader: emits 80, runs grub-install and grub-mkconfig,
emits 85 on success. -/
def install_bootloader (se : SysEnv) : Step Unit :=
  stepSeq [emitStep "Installing bootloader..." 80,
    cmdStep "Bootloader installation failed: " se.bootloader,
    emitStep "Bootloader installed successfully" 85]

/-- install_packages: a no-op on an empty list, else emits 90, installs
and emits 95. -/
def install_packages (se : SysEnv) (pkgs : List String) : Step Unit :=
  if pkgs.isEmpty then ([], .ok ())
  else stepSeq [emitStep ("Installing " ++ toString pkgs.length ++
      " additional packages...") 90,
    cmdStep "Package installation failed: " se.extraPkgs,
    emitStep "Additional packages installed" 95]

/-! ## Orchestrator (src/core/installer.py) -/

/-- InstallConfig as the orchestrator consumes it: the config dict keys
it reads, with none modelling an absent key. -/
structure Config where
  disk : Option String := none
  hostname : Option String := none
  username : Option String := none
  password : Option String := none
  locale : Option String := none
  timezone : Option String := none
  kernel : Option String := none
  swap_size : Option String := none
  mirror_url : Option String := none
  root_password : Option String := none
  profiles : List String := []
  additional_packages : List String := []
  sudo_enabled : Bool := true

/-- Python truthiness of an optional string field: present and
nonempty. -/
def truthy (o : Option String) : Bool :=
  match o with
  | some s => !s.isEmpty
  | none => false

/-- _validate_config: every required field present and truthy. -/
def validate_config (c : Config) : Bool :=
  truthy c.disk && truthy c.hostname && truthy c.username &&
  truthy c.password && truthy c.locale && truthy c.timezone &&
  truthy c.kernel

/-- _prepare_disk: emits 5, reads disk and swap_size from the config,
then calls self.disk_manager.unmount_all(disk_path).  DiskManager
(src/core/disk.py) defines no method unmount_all (nor
auto_partition_disk, format_partitions, mount_partitions or a public
create_swap_file), so the attribute lookup raises AttributeError, which
the except Exception of the stage wraps into an InstallationError. -/
def prepare_disk (_c : Config) : Step Unit :=
  stepThen (emitStep "Preparing disk..." 5)
    ([], .error ("Disk preparation failed: " ++
      "DiskManager object has no attribute unmount_all"))

/-- _install_base_system: emits 15, runs the four SystemInstaller steps,
emits 30; a SystemInstallError is re-wrapped by the stage handler. -/
def install_base_system_stage (se : SysEnv) : Step Unit :=
  match stepSeq [emitStep "Installing base system..." 15,
      install_base_system se, generate_fstab se,
      setup_network_in_chroot se, copy_installer_files se,
      emitStep "Base system installation completed" 30] with
  | (ev, .error e) => (ev, .error ("Base system installation failed: " ++ e))
  | r => r

/-- _configure_system: emits 35, configures hostname, locale, timezone,
user (the optional root password step catches its own errors and cannot
fail the stage) and services, emits 50; any exception is wrapped by the
stage handler. -/
def configure_system_stage (se : SysEnv) (c : Config) : Step Unit :=
  match stepSeq [emitStep "Configuring system..." 35,
      set_hostname se, configure_locale se, configure_timezone se,
      create_user se (c.username.getD ""), enable_services se,
      emitStep "System configuration completed" 50] with
  | (ev, .error e) => (ev, .error ("System configuration failed: " ++ e))
  | r => r

/-- _install_profiles as a pipeline stage: the report of the loop, whose
result is always ok (per-profile and helper failures are caught
inside). -/
def install_profiles_stage (pe : ProfileEnv) (c : Config) : Step Unit :=
  ((install_profiles pe c.profiles).trace,
   (install_profiles pe c.profiles).result)

/-- _finalize_installation: emits 80, installs the bootloader, installs
additional packages when some were chosen, applies custom configs (its
handler swallows errors), emits 95 and syncs; failures are wrapped by
the stage handler. -/
def finalize_installation_stage (se : SysEnv) (c : Config) : Step Unit :=
  match stepSeq [emitStep "Installing bootloader..." 80,
      install_bootloader se,
      (if c.additional_packages.isEmpty then ([], .ok ())
       else stepThen
         (emitStep "Installing additional packages..." 90)
         (install_packages se c.additional_packages)),
      emitStep "Finalizing installation..." 95] with
  | (ev, .error e) => (ev, .error ("Installation finalization failed: " ++ e))
  | r => r

/-- Observable behavior of _cleanup_on_failure: whether it was invoked,
how many umount commands it issued, and whether its own failure was
logged.  When the mount point exists it calls
self.disk_manager.unmount_all_from_mount_point(), a method DiskManager
does not define, so an AttributeError is raised, caught by its own
handler and logged; no unmount is ever attempted. -/
structure CleanupReport where
  invoked : Bool
  unmountCalls : Nat
  failureLogged : Bool
  deriving DecidableEq, Repr

/-- _cleanup_on_failure. -/
def cleanup_on_failure (mountPointExists : Bool) : CleanupReport :=
  if mountPointExists then ⟨true, 0, true⟩ else ⟨true, 0, false⟩

/-- Observable behavior of one run_full_installation call: the complete
progress-event sequence delivered to the callback, the result (error
carries the InstallationError message), and the cleanup report. -/
structure RunResult where
  trace : List (String × Int)
  result : Except String Bool
  cleanup : CleanupReport
  deriving Repr

/-- run_full_installation: emit 0, validate the config, run the five
stages in order, emit 100 and return True on success; on any exception
emit a -1 event carrying the message, run best-effort cleanup, and
re-raise a wrapped InstallationError. -/
def run_full_installation (c : Config) (se : SysEnv) (pe : ProfileEnv)
    (mountPointExists : Bool) : RunResult :=
  let body : Step Unit :=
    if !validate_config c then ([], .error "Invalid configuration")
    else stepSeq [prepare_disk c, install_base_system_stage se,
      configure_system_stage se c, install_profiles_stage pe c,
      finalize_installation_stage se c]
  match body with
  | (ev, .ok _) =>
    ⟨("Starting installation...", 0) :: ev ++
      [("Installation completed successfully!", 100)],
     .ok true, ⟨false, 0, false⟩⟩
  | (ev, .error e) =>
    ⟨("Starting installation...", 0) :: ev ++
      [("Installation failed: " ++ e, -1)],
     .error ("Installation failed: " ++ e),
     cleanup_on_failure mountPointExists⟩

/-! ## Shared lemmas about the Python int model -/

lemma pyIsSpace_eq_false_of_digit {c : Char} (h : pyIsDigit c = true) :
    pyIsSpace c = false := by
  simp only [pyIsDigit, Bool.and_eq_true, decide_eq_true_eq] at h
  simp only [pyIsSpace, Bool.or_eq_false_iff, decide_eq_false_iff_not]
  omega

lemma dropWhile_space_of_digits {l : List Char} (h : l.all pyIsDigit = true) :
    l.dropWhile pyIsSpace = l := by
  cases l with
  | nil => rfl
  | cons c r =>
    simp only [List.all_cons, Bool.and_eq_true] at h
    rw [List.dropWhile_cons, pyIsSpace_eq_false_of_digit h.1]
    simp

lemma pyStrip_of_digits {l : List Char} (h : l.all pyIsDigit = true) :
    pyStrip l = l := by
  unfold pyStrip
  rw [dropWhile_space_of_digits h,
    dropWhile_space_of_digits (by simpa [List.all_reverse] using h)]
  simp

lemma digit_ne_dash {c : Char} (h : pyIsDigit c = true) : ¬(c = '-') := by
  intro he
  subst he
  exact absurd h (by decide)

lemma digit_ne_plus {c : Char} (h : pyIsDigit c = true) : ¬(c = '+') := by
  intro he
  subst he
  exact absurd h (by decide)

lemma pyParseIntChars_of_digits {l : List Char} (hne : l ≠ [])
    (h : l.all pyIsDigit = true) :
    pyParseIntChars l = some ((digitsToNat l : Nat) : Int) := by
  unfold pyParseIntChars
  rw [pyStrip_of_digits h]
  cases l with
  | nil => exact absurd rfl hne
  | cons c r =>
    have hc : pyIsDigit c = true := by
      simp only [List.all_cons, Bool.and_eq_true] at h
      exact h.1
    simp only [pyParseSigned]
    rw [if_neg (digit_ne_dash hc), if_neg (digit_ne_plus hc)]
    unfold pyParseDigits
    rw [if_pos (by simp [h])]
    rfl

lemma concat_ne_of_getLast {l m : List Char} {a : Char}
    (h : m.getLast? ≠ some a) : l ++ [a] ≠ m := by
  intro he
  exact h (he ▸ List.getLast?_concat l)

/-! ## Claim C4: swap resolution -/

/-- C4 (confirmed).  Swap resolution is a deterministic function (it is a
Lean function of the policy string and the modelled MemTotal reading) and
yields: 0 for "none"; exactly N for a fixed "NG"; N floor-divided by 1024
with a minimum of 1 for a fixed nonzero "NM"; min(RAM in GB, 8) for
"auto" with readable RAM, and 2 when the RAM read raises. -/
theorem c4_swap_resolution :
    (∀ ram, resolveSwap "none" ram = some 0)
    ∧ (∀ kb, resolveSwap "auto" (some kb) =
        some (min ((kb / (1024 * 1024) : Nat) : Int) 8))
    ∧ resolveSwap "auto" none = some 2
    ∧ (∀ (ds : List Char) (ram : Option Nat), ds ≠ [] →
        ds.all pyIsDigit = true →
        resolveSwapAux (ds ++ ['G']) ram = some ((digitsToNat ds : Nat) : Int))
    ∧ (∀ (ds : List Char) (ram : Option Nat), ds ≠ [] →
        ds.all pyIsDigit = true → 0 < digitsToNat ds →
        resolveSwapAux (ds ++ ['M']) ram =
          some (max 1 (Int.fdiv (digitsToNat ds : Nat) 1024))) := by
  refine ⟨fun ram => rfl, fun kb => rfl, rfl, ?_, ?_⟩
  · intro ds ram hne h
    unfold resolveSwapAux
    rw [if_neg (concat_ne_of_getLast (by decide)),
      if_neg (concat_ne_of_getLast (by decide)),
      if_pos (by simp [endsWithChar, List.getLast?_concat]),
      List.dropLast_concat]
    exact pyParseIntChars_of_digits hne h
  · intro ds ram hne h _
    unfold resolveSwapAux
    rw [if_neg (concat_ne_of_getLast (by decide)),
      if_neg (concat_ne_of_getLast (by decide)),
      if_neg (by simp [endsWithChar, List.getLast?_concat]),
      if_pos (by simp [endsWithChar, List.getLast?_concat]),
      List.dropLast_concat, pyParseIntChars_of_digits hne h]
    rfl

/-- Witness for C4 at concrete inputs: policies "none", "4G", "2048M",
"auto" with 4GB of RAM, and "auto" with an unreadable meminfo. -/
theorem c4_swap_resolution_witness :
    resolveSwap "none" none = some 0
    ∧ resolveSwapAux (['4'] ++ ['G']) none = some 4
    ∧ resolveSwapAux (['2', '0', '4', '8'] ++ ['M']) none = some 2
    ∧ resolveSwap "auto" (some 4194304) = some 4
    ∧ resolveSwap "auto" none = some 2 := by
  have h := c4_swap_resolution
  refine ⟨h.1 none, ?_, ?_, ?_, h.2.2.1⟩
  · simpa using h.2.2.2.1 ['4'] none (by decide) (by decide)
  · simpa using h.2.2.2.2 ['2', '0', '4', '8'] none (by decide) (by decide)
      (by decide)
  · simpa using h.2.1 4194304

/-! ## Claim C5: validation rule order -/

/-- Disk query of a 21GB device that is currently mounted; with swap
policy "8G" the computed requirement is 24GB, so both the mounted rule
and the space rule apply to it. -/
def mountedSmallEnv : DiskEnv :=
  ⟨.ok ⟨21 * 1073741824, "TestDisk", true⟩, some 4194304⟩

/-- Counterexample to C5 as stated: on a device that is both mounted and
below the computed requirement, validate_disk_for_installation returns
the insufficient-space reason, not the mounted-related one — the source
checks the space requirement before the mounted check, so rule 4 runs
before rule 3. -/
theorem c5_counterexample :
    validate_disk_for_installation mountedSmallEnv "8G" =
      (false,
       "Insufficient space: 21GB available, 24GB required (including 8GB swap)")
    ∧ (validate_disk_for_installation mountedSmallEnv "8G").2 ≠
      "Disk is currently mounted and in use" := by
  exact ⟨rfl, by decide⟩

/-- C5 (corrected).  The rules run in order with short-circuit, but the
order is: (1) device queryable, (2) size at least 20GB, (3) size at
least the computed requirement 10 + 1 + swap + 5, (4) device not
mounted; for a device that is both mounted and below the requirement
the returned reason is the insufficient-space one. -/
theorem c5_rule_order (env : DiskEnv) (swapSize : String) (q : DiskQuery)
    (g : Int) (hq : env.query = .ok q)
    (hg : resolveSwap swapSize env.ram = some g) :
    validate_disk_for_installation env swapSize =
      (if q.sizeBytes / (1024 * 1024 * 1024) < 20 then
         (false, "Disk too small: " ++
           toString (q.sizeBytes / (1024 * 1024 * 1024)) ++
           "GB (minimum 20GB required)")
       else if ((q.sizeBytes / (1024 * 1024 * 1024) : Nat) : Int) <
           10 + 1 + g + 5 then
         (false, "Insufficient space: " ++
           toString (q.sizeBytes / (1024 * 1024 * 1024)) ++
           "GB available, " ++ toString (10 + 1 + g + 5 : Int) ++
           "GB required (including " ++ toString g ++ "GB swap)")
       else if q.mounted then
         (false, "Disk is currently mounted and in use")
       else
         (true, "Disk suitable: " ++
           toString (q.sizeBytes / (1024 * 1024 * 1024)) ++ "GB total, " ++
           toString (((q.sizeBytes / (1024 * 1024 * 1024) : Nat) : Int) -
             (10 + 1 + g + 5)) ++
           "GB will remain free")) := by
  unfold validate_disk_for_installation validateDiskBody get_disk_info
  rw [hq, hg]
  dsimp only
  by_cases h1 : q.sizeBytes / (1024 * 1024 * 1024) < 20
  · rw [if_pos h1, if_pos h1]
  · rw [if_neg h1, if_neg h1]
    by_cases h2 : ((q.sizeBytes / (1024 * 1024 * 1024) : Nat) : Int) <
        10 + 1 + g + 5
    · rw [if_pos h2, if_pos h2]
    · rw [if_neg h2, if_neg h2]
      by_cases h3 : q.mounted
      · rw [if_pos h3, if_pos h3]
      · rw [if_neg h3, if_neg h3]

/-- Witness for C5 at a 25GB unmounted device with policy "auto" and 4GB
of RAM: the validation succeeds with the suitable message. -/
theorem c5_rule_order_witness :
    validate_disk_for_installation
      ⟨.ok ⟨25 * 1073741824, "TestDisk", false⟩, some 4194304⟩ "auto" =
      (true, "Disk suitable: 25GB total, 5GB will remain free") := by
  have h := c5_rule_order
    ⟨.ok ⟨25 * 1073741824, "TestDisk", false⟩, some 4194304⟩ "auto"
    ⟨25 * 1073741824, "TestDisk", false⟩ 4 rfl rfl
  simpa using h

/-! ## Claim C10: validate never raising -/

/-- Environment in which the device query raises inside get_disk_info
(an unexpected I/O error, e.g. lsblk exiting nonzero). -/
def ioErrorEnv : DiskEnv := ⟨.error "lsblk reported an error", some 4194304⟩

/-- Counterexample to C10 as stated: for an unexpected I/O error the
claim says validate_disk_for_installation raises the separately tagged
DiskError; the code catches it in the outer except and returns a
normal (False, reason) pair instead, so no caller can observe a raise. -/
theorem c10_counterexample :
    validate_disk_for_installation ioErrorEnv "2G" =
      (false, "Validation failed: Could not get disk info: lsblk reported an error") := by
  rfl

/-- C10 (corrected).  validate_disk_for_installation always returns a
(bool, reason) pair and never raises: expected validation failures
return False with their reason (established by c5_rule_order), and an
unexpected I/O error — which does raise the tagged DiskError inside
get_disk_info — is caught by the outer except and reported as a
(False, "Validation failed: Could not get disk info: ...") pair. -/
theorem c10_total (env : DiskEnv) (swapSize : String) (e : String)
    (hq : env.query = .error e) :
    validate_disk_for_installation env swapSize =
      (false, "Validation failed: " ++ ("Could not get disk info: " ++ e))
    ∧ get_disk_info env = .error ("Could not get disk info: " ++ e) := by
  constructor
  · unfold validate_disk_for_installation validateDiskBody get_disk_info
    rw [hq]
  · unfold get_disk_info
    rw [hq]

/-- Witness for C10 at a concrete failing query. -/
theorem c10_total_witness :
    validate_disk_for_installation ⟨.error "boom", none⟩ "4G" =
      (false, "Validation failed: Could not get disk info: boom")
    ∧ get_disk_info ⟨.error "boom", none⟩ =
      .error "Could not get disk info: boom" := by
  have h := c10_total ⟨.error "boom", none⟩ "4G" "boom" rfl
  exact ⟨h.1.trans (by rfl), h.2.trans (by rfl)⟩

/-! ## Claims C1, C2, C7: orchestrator runs -/

/-- The end-to-end scenario config of the spec: 25GB unmounted device,
swap "auto", hostname gx-test, user gamer, password validpass1, locale
en_US.UTF-8, timezone UTC, kernel linux, no profiles. -/
def scenarioConfig : Config :=
  { disk := some "/dev/sdX", hostname := some "gx-test",
    username := some "gamer", password := some "validpass1",
    locale := some "en_US.UTF-8", timezone := some "UTC",
    kernel := some "linux", swap_size := some "auto", profiles := [] }

/-- Message of the InstallationError every run of run_full_installation
raises: _prepare_disk dies on the missing DiskManager.unmount_all. -/
def prepareDiskFailure : String :=
  "Installation failed: " ++ ("Disk preparation failed: " ++
    "DiskManager object has no attribute unmount_all")

/-- Shape of every run whose config passes validation: the run emits 0
and 5, fails in _prepare_disk, emits the sentinel and returns the
wrapped error, regardless of the environments. -/
lemma run_of_valid_config (c : Config) (se : SysEnv) (pe : ProfileEnv)
    (mp : Bool) (h : validate_config c = true) :
    run_full_installation c se pe mp =
      ⟨[("Starting installation...", 0), ("Preparing disk...", 5),
        (prepareDiskFailure, -1)],
       .error prepareDiskFailure, cleanup_on_failure mp⟩ := by
  unfold run_full_installation
  rw [h]
  rfl

/-- Shape of every run whose config fails validation. -/
lemma run_of_invalid_config (c : Config) (se : SysEnv) (pe : ProfileEnv)
    (mp : Bool) (h : validate_config c = false) :
    run_full_installation c se pe mp =
      ⟨[("Starting installation...", 0),
        ("Installation failed: " ++ "Invalid configuration", -1)],
       .error ("Installation failed: " ++ "Invalid configuration"),
       cleanup_on_failure mp⟩ := by
  unfold run_full_installation
  rw [h]
  rfl

/-- C1 (code_bug).  The spec scenario cannot complete: run_full_installation
always raises InstallationError out of _prepare_disk, because
DiskManager defines none of the methods the orchestrator calls
(unmount_all and the rest); the progress percentages delivered are
0, 5, -1 and never 100.  The sub-claims that do hold are included:
swap "auto" with 4GB of RAM resolves to 4GB, and an empty profile list
is a no-op of the profile stage (emits 70 and succeeds), not a
failure. -/
theorem c1_end_to_end_scenario :
    (∀ (se : SysEnv) (pe : ProfileEnv) (mp : Bool),
      (run_full_installation scenarioConfig se pe mp).result =
        .error prepareDiskFailure
      ∧ (run_full_installation scenarioConfig se pe mp).trace.map Prod.snd =
        [0, 5, -1]
      ∧ (100 : Int) ∉
        (run_full_installation scenarioConfig se pe mp).trace.map Prod.snd)
    ∧ resolveSwap "auto" (some 4194304) = some 4
    ∧ (∀ pe : ProfileEnv, (install_profiles pe []).result = .ok ()
        ∧ (install_profiles pe []).trace =
          [("Skipping profile installation", 70)]) := by
  refine ⟨fun se pe mp => ⟨rfl, rfl, ?_⟩, rfl, fun pe => ⟨rfl, rfl⟩⟩
  have ht : (run_full_installation scenarioConfig se pe mp).trace.map
      Prod.snd = [0, 5, -1] := rfl
  rw [ht]
  decide

/-- Sequence of non-negative percentages in a trace is non-decreasing. -/
def nondecreasing : List Int → Bool
  | [] => true
  | [_] => true
  | a :: b :: t => decide (a ≤ b) && nondecreasing (b :: t)

/-- C2 (confirmed).  In every run of run_full_installation, for every
environment, the percentages delivered to the callback are monotone
non-decreasing once the negative failure sentinel is excluded.  This
holds because every run fails inside _prepare_disk (see C1) after
emitting 0 and possibly 5, then emits only the -1 sentinel; no
SystemInstaller emission is ever reached. -/
theorem c2_progress_monotone (c : Config) (se : SysEnv) (pe : ProfileEnv)
    (mp : Bool) :
    nondecreasing
      (((run_full_installation c se pe mp).trace.map Prod.snd).filter
        (fun p => decide (0 ≤ p))) = true := by
  cases h : validate_config c
  · rw [run_of_invalid_config c se pe mp h]
    rfl
  · rw [run_of_valid_config c se pe mp h]
    rfl

/-- C7 (code_bug).  On every failing run (and every run fails): the last
delivered event is the negative sentinel carrying exactly the raised
error message, the wrapped InstallationError is re-raised, cleanup is
invoked and its own failure is logged without masking the original
error — but cleanup issues zero umount commands, because
DiskManager.unmount_all_from_mount_point does not exist and the
resulting AttributeError is swallowed by the cleanup handler, so
nothing under the target mount point is ever unmounted. -/
theorem c7_failure_path (c : Config) (se : SysEnv) (pe : ProfileEnv)
    (mp : Bool) (e : String)
    (hfail : (run_full_installation c se pe mp).result = .error e) :
    (run_full_installation c se pe mp).trace.getLast? = some (e, -1)
    ∧ (run_full_installation c se pe mp).cleanup = cleanup_on_failure mp
    ∧ (cleanup_on_failure mp).invoked = true
    ∧ (cleanup_on_failure mp).unmountCalls = 0
    ∧ (mp = true → (cleanup_on_failure mp).failureLogged = true) := by
  cases h : validate_config c
  · rw [run_of_invalid_config c se pe mp h] at hfail ⊢
    dsimp only at hfail
    simp only [Except.error.injEq] at hfail
    subst hfail
    cases mp
    · exact ⟨rfl, rfl, rfl, rfl, fun hm => nomatch hm⟩
    · exact ⟨rfl, rfl, rfl, rfl, fun _ => rfl⟩
  · rw [run_of_valid_config c se pe mp h] at hfail ⊢
    dsimp only at hfail
    simp only [Except.error.injEq] at hfail
    subst hfail
    cases mp
    · exact ⟨rfl, rfl, rfl, rfl, fun hm => nomatch hm⟩
    · exact ⟨rfl, rfl, rfl, rfl, fun _ => rfl⟩

/-- Witness for C7: the scenario run with an existing mount point. -/
theorem c7_failure_path_witness :
    (run_full_installation scenarioConfig
      ⟨.ok, .ok (), .ok (), .ok (), .ok (), .ok (), .ok (), .ok (), .ok (),
       .ok (), .ok ()⟩
      ⟨fun _ => (true, ""), fun _ => true, fun _ => true, true, true⟩
      true).trace.getLast? = some (prepareDiskFailure, -1)
    ∧ (cleanup_on_failure true).unmountCalls = 0 := by
  have h := c7_failure_path scenarioConfig
    ⟨.ok, .ok (), .ok (), .ok (), .ok (), .ok (), .ok (), .ok (), .ok (),
     .ok (), .ok ()⟩
    ⟨fun _ => (true, ""), fun _ => true, fun _ => true, true, true⟩
    true prepareDiskFailure rfl
  exact ⟨h.1, h.2.2.2.1⟩

/-! ## Claim C3: mirror sweep aggregation -/

/-- Network outcome in which the first catalog mirror (Rackspace, whose
display name contains a parenthesis) answers in 100ms and every other
mirror fails. -/
def crashNet : List NetOutcome :=
  NetOutcome.success 100 :: List.replicate 35 (NetOutcome.failure "mirror unreachable")

/-- C3 (code_bug).  The sweep itself produces one result per catalog
entry, but the aggregation does not return the K sorted entries the
claim describes: the sort key re-parses the latency out of the
formatted display name via split on the first parenthesis, so as soon
as a mirror whose display name contains a parenthesis succeeds (here
Rackspace (Texas) at 100ms), int() is applied to "Texas) " and the
whole of get_tested_mirrors dies with a ValueError instead of
returning a list. -/
theorem c3_sweep_aggregation :
    (test_mirrors_parallel WORLDWIDE_MIRRORS crashNet).length =
      WORLDWIDE_MIRRORS.length
    ∧ get_tested_mirrors crashNet =
      .error "invalid literal for int() with base 10: Texas) " := by
  exact ⟨rfl, rfl⟩

/-! ## Claim C6: partial-failure profile loop -/

/-- C6 (confirmed).  With profiles [A (valid), B (invalid in the target),
C (valid)], the loop installs A and C, catches and logs B's
ProfileError without aborting, and the stage result is ok; moreover no
profile selection at all can make the stage fail. -/
theorem c6_profile_loop (pe : ProfileEnv) (a b c : String) (msgB : String)
    (ha : install_profile pe a = .ok ())
    (hb : pe.targetValidation b = (false, msgB))
    (hc : install_profile pe c = .ok ()) :
    (install_profiles pe [a, b, c]).installed = [a, c]
    ∧ (install_profiles pe [a, b, c]).loggedErrors =
        [(b, "Profile installation failed: Profile validation failed: " ++ msgB)]
    ∧ (install_profiles pe [a, b, c]).result = .ok ()
    ∧ (∀ (pe2 : ProfileEnv) (ps : List String),
        (install_profiles pe2 ps).result = .ok ()) := by
  have hbe : install_profile pe b =
      .error ("Profile installation failed: Profile validation failed: " ++
        msgB) := by
    unfold install_profile
    rw [hb]
    rfl
  have hloop : profileLoop pe ([a, b, c] : List String).length
      [(0, a), (1, b), (2, c)] =
      ([("Installing profile: " ++ a, 60), ("Installing profile: " ++ b, 63),
        ("Installing profile: " ++ c, 66)], [a, c],
       [(b, "Profile installation failed: Profile validation failed: " ++
          msgB)]) := by
    simp [profileLoop, ha, hb, hbe, hc]
  refine ⟨?_, ?_, ?_, ?_⟩
  · unfold install_profiles
    simp only [show ([a, b, c] : List String).enum =
      [(0, a), (1, b), (2, c)] from rfl, List.isEmpty_cons,
      Bool.false_eq_true, if_false, hloop]
  · unfold install_profiles
    simp only [show ([a, b, c] : List String).enum =
      [(0, a), (1, b), (2, c)] from rfl, List.isEmpty_cons,
      Bool.false_eq_true, if_false, hloop]
  · unfold install_profiles
    simp only [show ([a, b, c] : List String).enum =
      [(0, a), (1, b), (2, c)] from rfl, List.isEmpty_cons,
      Bool.false_eq_true, if_false, hloop]
  · intro pe2 ps
    unfold install_profiles
    cases ps <;> rfl

/-- Witness for C6 with a concrete environment in which A and C validate
and run in the target while B's bundle directory is missing there. -/
theorem c6_profile_loop_witness :
    (install_profiles
      ⟨fun n => if n = "B" then (false, "Profile directory not found") else
        (true, "validated"), fun _ => true, fun _ => true, true, true⟩
      ["A", "B", "C"]).installed = ["A", "C"]
    ∧ (install_profiles
      ⟨fun n => if n = "B" then (false, "Profile directory not found") else
        (true, "validated"), fun _ => true, fun _ => true, true, true⟩
      ["A", "B", "C"]).loggedErrors =
      [("B", "Profile installation failed: Profile validation failed: " ++
        "Profile directory not found")]
    ∧ (install_profiles
      ⟨fun n => if n = "B" then (false, "Profile directory not found") else
        (true, "validated"), fun _ => true, fun _ => true, true, true⟩
      ["A", "B", "C"]).result = .ok () := by
  have h := c6_profile_loop
    ⟨fun n => if n = "B" then (false, "Profile directory not found") else
      (true, "validated"), fun _ => true, fun _ => true, true, true⟩
    "A" "B" "C" "Profile directory not found" rfl rfl rfl
  exact ⟨h.1, h.2.1, h.2.2.1⟩

/-! ## Claim C8: profile validity contract -/

/-- Profile bundle with install.sh present but not executable and an
empty (zero-package) package list. -/
def nonExecEmptyProfile : ProfileFS :=
  ⟨"Theme", true, false, false, true, .ok []⟩

/-- Counterexample to C8 as stated: a bundle whose entrypoint is not
executable and whose package-list file is empty is accepted by
discovery (the code chmods the entrypoint instead of rejecting it, and
only requires the package-list file to exist, not to be non-empty),
while the claim says exactly such a bundle is invalid and skipped. -/
theorem c8_counterexample :
    validate_profile nonExecEmptyProfile = some ⟨"Theme", 0⟩
    ∧ discover_profiles true [nonExecEmptyProfile] = [⟨"Theme", 0⟩] := by
  exact ⟨rfl, rfl⟩

/-- C8 (corrected).  A bundle is valid iff install.sh and
packages/package-list.txt both exist (and its metadata calls do not
raise); executability never affects the verdict — a non-executable
entrypoint is made executable and accepted — and an empty package list
is accepted with a package count of 0.  Invalid bundles are skipped by
discovery rather than raising. -/
theorem c8_validity_contract :
    (∀ fs : ProfileFS, (validate_profile fs).isSome =
      (fs.installShExists && fs.packageListExists && !fs.statFails))
    ∧ (∀ (fs : ProfileFS) (b : Bool),
        validate_profile {fs with installShExecutable := b} =
          validate_profile fs)
    ∧ (∀ dirs : List ProfileFS,
        discover_profiles true dirs = dirs.filterMap validate_profile) := by
  refine ⟨?_, fun fs b => rfl, fun dirs => rfl⟩
  intro fs
  obtain ⟨n, i, x, st, p, lines⟩ := fs
  cases i <;> cases p <;> cases st <;> rfl

/-! ## Claim C9: mirror cache TTL -/

/-- C9 (confirmed).  Starting from the module-initial state, a first
get_cached_mirrors call with ttl 300 sweeps and stamps its call time;
a second call made fewer than 300 seconds later returns the cached
list without sweeping (so the pair of calls triggers exactly one
sweep), and a second call made at or after TTL expiry sweeps again and
refreshes the cache timestamp to its own call time.  The first sweep
must return a nonempty list for the cache to be truthy, which the
36-entry catalog guarantees for any completed sweep. -/
theorem c9_cache_ttl (sweep sweep2 : List (String × String × String))
    (t1 t2 : Nat) (hne : sweep ≠ []) :
    get_cached_mirrors sweep 300 t1 initialCacheState =
      ⟨sweep, ⟨some sweep, t1⟩, true⟩
    ∧ (t2 - t1 < 300 →
        get_cached_mirrors sweep2 300 t2 ⟨some sweep, t1⟩ =
          ⟨sweep, ⟨some sweep, t1⟩, false⟩)
    ∧ (300 ≤ t2 - t1 →
        get_cached_mirrors sweep2 300 t2 ⟨some sweep, t1⟩ =
          ⟨sweep2, ⟨some sweep2, t2⟩, true⟩) := by
  have hemp : sweep.isEmpty = false := by
    cases sweep
    · exact absurd rfl hne
    · rfl
  refine ⟨rfl, fun hlt => ?_, fun hge => ?_⟩
  · unfold get_cached_mirrors
    simp [hemp, hlt]
  · unfold get_cached_mirrors
    simp [hemp, Nat.not_lt.mpr hge]

/-- Witness for C9: a one-entry sweep result, a second call 100 seconds
later (cached, no sweep) and a second call 400 seconds later (fresh
sweep, timestamp refreshed). -/
theorem c9_cache_ttl_witness :
    get_cached_mirrors [("m", "u", "working")] 300 0 initialCacheState =
      ⟨[("m", "u", "working")], ⟨some [("m", "u", "working")], 0⟩, true⟩
    ∧ get_cached_mirrors [("x", "y", "working")] 300 100
        ⟨some [("m", "u", "working")], 0⟩ =
      ⟨[("m", "u", "working")], ⟨some [("m", "u", "working")], 0⟩, false⟩
    ∧ get_cached_mirrors [("x", "y", "working")] 300 400
        ⟨some [("m", "u", "working")], 0⟩ =
      ⟨[("x", "y", "working")], ⟨some [("x", "y", "working")], 400⟩, true⟩ := by
  have h := c9_cache_ttl [("m", "u", "working")] [("x", "y", "working")]
    0 100 (by decide)
  have h2 := c9_cache_ttl [("m", "u", "working")] [("x", "y", "working")]
    0 400 (by decide)
  exact ⟨h.1, h.2.1 (by decide), h2.2.2 (by decide)⟩

end GXInstaller
